import Mathlib

/-!
# Shallow embedding of the SNAI social-network server (src/server.js)

This file embeds, in Lean 4, the data model and the operations of the
server that the verification claims are about: the vote handlers, the
trending hot-score computation, the agent post generator, the rate
limiter, the new-post / delete-post websocket handlers, agent
registration, the post-list cap, and the broadcast channel.

JavaScript objects that serve as string-keyed maps are embedded as
association lists; JS `undefined`/`null` string values are `Option
String`; JS numbers that hold integer quantities (timestamps, counters,
vote tallies) are `Int`/`Nat`; the one real-number computation
(`calculateHotScore`, which uses `Math.pow`) is embedded over `ℝ`.
-/

namespace SNAI

/-- Lookup in a JS object used as a string-keyed map (`obj[key]`). -/
def lookupAssoc {α : Type} : List (String × α) → String → Option α
  | [], _ => none
  | (k, v) :: rest, key => if k = key then some v else lookupAssoc rest key

/-- Assignment `obj[key] = v` on a JS object used as a string-keyed map:
replaces the binding if present, otherwise appends it. -/
def setAssoc {α : Type} : List (String × α) → String → α → List (String × α)
  | [], key, v => [(key, v)]
  | (k, w) :: rest, key, v =>
      if k = key then (key, v) :: rest else (k, w) :: setAssoc rest key v

/-- `voters[wallet] || 0` : read a vote entry with JS falsy-default 0. -/
def getVoter (m : List (String × Int)) (w : String) : Int :=
  (lookupAssoc m w).getD 0

/-- `s || dflt` for a possibly-undefined JS string (both `undefined` and
the empty string are falsy). -/
def jsOr (s : Option String) (dflt : String) : String :=
  match s with
  | none => dflt
  | some v => if v = "" then dflt else v

/-- Integer model of `Math.ceil(x / 1000)` for an integer number of
milliseconds `x` (Euclidean division by a positive constant). -/
def jsCeilDiv1000 (x : Int) : Int := (x + 999) / 1000

/-- Character-level model of JS `s.slice(0, n)`. -/
def strTake (s : String) (n : Nat) : String := String.mk (s.data.take n)

/-- Character-level model of JS `s.slice(-n)` (last `n` characters). -/
def strTakeRight (s : String) (n : Nat) : String :=
  String.mk (s.data.drop (s.data.length - n))

/-- Character-level (ASCII) model of JS `s.toLowerCase()`. -/
def strToLower (s : String) : String := String.mk (s.data.map Char.toLower)

/-- Character-level (ASCII) model of JS `s.toUpperCase()`. -/
def strToUpper (s : String) : String := String.mk (s.data.map Char.toUpper)

/-- Character-level model of JS `s.trim()`. -/
def strTrim (s : String) : String :=
  String.mk
    (((s.data.dropWhile Char.isWhitespace).reverse.dropWhile Char.isWhitespace).reverse)

/-- `name.toLowerCase().replace(/[^a-z0-9]/g, '_')` (handle derivation in
`createUserAgent`). -/
def toHandle (name : String) : String :=
  String.mk ((strToLower name).data.map (fun c =>
    if (('a' ≤ c ∧ c ≤ 'z') ∨ ('0' ≤ c ∧ c ≤ '9')) then c else '_'))

/-- An embedded comment record (created by the `comment` handler). -/
structure Comment where
  author : String
  wallet : String
  text : String
  time : String
  timestamp : Int
deriving Repr, DecidableEq

/-- A post record.  Posts are duck-typed in the source: human posts carry
a `hive` field, scheduler/agent posts carry a `claw` field and
`authorHandle`/`isAgentPost`; absent fields are `none`/`false`. -/
structure Post where
  id : Nat
  hive : Option String
  claw : Option String
  title : String
  content : String
  author : String
  authorHandle : Option String
  wallet : String
  votes : Int
  voters : List (String × Int)
  comments : List Comment
  time : String
  timestamp : Int
  isAgentPost : Bool
deriving Repr, DecidableEq

/-- `token` subrecord of a user-created agent (`generateFakeCA` output). -/
structure AgentToken where
  ca : String
  launched : Int
deriving Repr, DecidableEq

/-- An agent persona record (hardcoded roster entries, user-created
agents, and converted registered external agents share this shape). -/
structure Agent where
  id : Nat
  name : String
  handle : String
  ticker : String
  description : String
  personality : String
  avatar : String
  creator : String
  creatorWallet : Option String
  karma : Int
  postCount : Nat
  commentCount : Nat
  followers : List String
  topics : List String
  createdAt : Int
  isAI : Bool
  isUserCreated : Bool
  isVerified : Bool
  deployedBy : String
  token : Option AgentToken
deriving Repr, DecidableEq

/-- A user record (`getUser` creation literal). -/
structure User where
  wallet : String
  username : Option String
  karma : Int
  joinedAt : Int
  postCount : Nat
  commentCount : Nat
  lastSeen : Int
  bio : String
  avatar : String
  agentsCreated : List Nat
  following : List String
  followers : List String
  chatCount : Nat
  votesGiven : Nat
  level : Nat
  xp : Int
deriving Repr, DecidableEq

/-- The fresh user literal created on first contact by `getUser`. -/
def freshUser (wallet : String) (now : Int) : User :=
  { wallet := wallet
    username := none
    karma := 0
    joinedAt := now
    postCount := 0
    commentCount := 0
    lastSeen := now
    bio := ""
    avatar := "🐝"
    agentsCreated := []
    following := []
    followers := []
    chatCount := 0
    votesGiven := 0
    level := 1
    xp := 0 }

/-- An unlocked-achievement record. -/
structure Achievement where
  id : String
  name : String
  desc : String
  icon : String
  unlockedAt : Int
deriving Repr, DecidableEq

/-- A row of the hardcoded `ACHIEVEMENTS` table. -/
structure AchDef where
  id : String
  name : String
  desc : String
  icon : String
  karma : Int
deriving Repr, DecidableEq

/-- The hardcoded `ACHIEVEMENTS` table. -/
def ACHIEVEMENTS : List AchDef :=
  [ ⟨"first_post", "First Post!", "Create your first post", "📝", 5⟩
  , ⟨"first_comment", "Conversation Starter", "Leave your first comment", "💬", 3⟩
  , ⟨"first_vote", "Democracy!", "Vote on a post", "🗳️", 2⟩
  , ⟨"karma_10", "Rising Star", "Reach 10 karma", "⭐", 10⟩
  , ⟨"karma_100", "Community Member", "Reach 100 karma", "🌟", 25⟩
  , ⟨"karma_500", "Swarm Elite", "Reach 500 karma", "💎", 50⟩
  , ⟨"karma_1000", "Hornet Legend", "Reach 1000 karma", "👑", 100⟩
  , ⟨"deploy_agent", "Agent Creator", "Deploy your first AI agent", "🤖", 50⟩
  , ⟨"battle_winner", "Battle Champion", "Win an agent battle", "⚔️", 25⟩
  , ⟨"proposal_passed", "Legislator", "Get a proposal passed", "🏛️", 50⟩
  , ⟨"chat_10", "SNAI Whisperer", "Have 10 conversations with SNAI", "🐝", 15⟩
  , ⟨"posts_10", "Content Creator", "Create 10 posts", "📰", 20⟩
  , ⟨"posts_50", "Prolific Poster", "Create 50 posts", "📚", 50⟩
  , ⟨"comments_50", "Commentator", "Leave 50 comments", "💭", 30⟩
  , ⟨"early_adopter", "Early Adopter", "Join in the first 1000 users", "🚀", 100⟩
  , ⟨"viral_post", "Viral!", "Get 50+ votes on a single post", "🔥", 75⟩
  , ⟨"follow_10", "Social Butterfly", "Follow 10 agents or users", "🦋", 10⟩
  , ⟨"followed_10", "Influencer", "Get 10 followers", "📢", 25⟩ ]

/-- A per-wallet notification record (`addNotification` literal). -/
structure Notif where
  id : Int
  type : String
  content : String
  relatedId : Option Nat
  read : Bool
  timestamp : Int
deriving Repr, DecidableEq

/-- An activity-feed record (`addActivity` literal). -/
structure Activity where
  type : String
  actor : String
  actorWallet : String
  target : String
  content : String
  timestamp : Int
deriving Repr, DecidableEq

/-- Tagged server→client messages (`{type, ...payload}` objects).  Only
the variants emitted by the embedded handlers are listed. -/
inductive Event where
  /-- `{type:'new_post', post}` -/
  | newPost (post : Post)
  /-- `{type:'update_post', post}` -/
  | updatePost (post : Post)
  /-- `{type:'delete_post', postId}` -/
  | deletePost (postId : Nat)
  /-- `{type:'state', state:{posts, comments}}` -/
  | stateCounts (posts : Nat) (comments : Nat)
  /-- `{type:'activity', user, action}` (scheduler variant) -/
  | activityAction (user : String) (action : String)
  /-- `{type:'activity', activity}` (`addActivity` variant) -/
  | activityRecord (activity : Activity)
  /-- `{type:'agents', agents}` -/
  | agentsList (agents : List Agent)
  /-- `{type:'new_agent', agent}` -/
  | newAgent (agent : Agent)
  /-- `{type:'error', message}` (sent to one session, not broadcast) -/
  | errorMsg (message : String)
  /-- `{type:'rate_limited', waitTime}` (sent to one session) -/
  | rateLimitedMsg (waitTime : Int)
  /-- `{type:'notification', notification}` sent to the sessions of one
  wallet by `addNotification`. -/
  | notificationFor (wallet : String) (notif : Notif)
deriving Repr, DecidableEq

/-- The process-wide mutable collections touched by the embedded
operations.  `registeredAgents` holds the result of
`getActiveRegisteredAgents().map(registeredAgentToInternal)` already in
internal `Agent` form. -/
structure ServerState where
  posts : List Post
  nextPostId : Nat
  users : List (String × User)
  userAgents : List Agent
  agents : List Agent
  registeredAgents : List Agent
  nextAgentId : Nat
  achievements : List (String × List Achievement)
  notifications : List (String × List Notif)
  activityFeed : List Activity
  rateLimitMap : List (String × List Int)
  topicInterests : List (String × List (String × Nat))
deriving Repr, DecidableEq

/-- `getTotalComments()`: sum of comment-list lengths over all posts. -/
def getTotalComments (posts : List Post) : Nat :=
  posts.foldl (fun s p => s + p.comments.length) 0

/-- `getDisplayName(wallet)`: `'SNAI'` for the system identity, else the
user's username, else `wallet.slice(0,4) + '..' + wallet.slice(-4)`. -/
def getDisplayName (wallet : String) (users : List (String × User)) : String :=
  if wallet = "SNAI" then "SNAI"
  else
    let short := strTake wallet 4 ++ ".." ++ strTakeRight wallet 4
    match lookupAssoc users wallet with
    | some u => (u.username).getD short
    | none => short

/-- `addNotification(wallet, type, content, relatedId)`: prepend a
notification capped at 50 and send it to the wallet's open sessions
(the send is recorded as an `Event.notificationFor`). -/
def addNotification (wallet : String) (ty content : String)
    (relatedId : Option Nat) (now : Int) (st : ServerState) :
    ServerState × List Event :=
  if wallet = "" ∨ wallet = "SNAI" then (st, [])
  else
    let list := (lookupAssoc st.notifications wallet).getD []
    let notif : Notif :=
      { id := now, type := ty, content := content, relatedId := relatedId
        read := false, timestamp := now }
    ({ st with notifications :=
        setAssoc st.notifications wallet ((notif :: list).take 50) },
     [Event.notificationFor wallet notif])

/-- `addActivity(type, actor, target, content)`: prepend an activity
record capped at 500 and broadcast it. -/
def addActivity (ty actor target content : String) (now : Int)
    (st : ServerState) : ServerState × List Event :=
  let actorDisplay :=
    match lookupAssoc st.users actor with
    | some u => (u.username).getD (strTake actor 4 ++ "..")
    | none => strTake actor 4 ++ ".."
  let activity : Activity :=
    { type := ty, actor := actorDisplay, actorWallet := actor
      target := target, content := content, timestamp := now }
  ({ st with activityFeed := (activity :: st.activityFeed).take 500 },
   [Event.activityRecord activity])

/-- `unlockAchievement(wallet, achievementId)`: record the achievement
once, award its karma/xp bonus, notify the wallet and log an activity. -/
def unlockAchievement (wallet achievementId : String) (now : Int)
    (st : ServerState) : Option Achievement × ServerState × List Event :=
  if wallet = "" then (none, st, [])
  else
    let walletAch := (lookupAssoc st.achievements wallet).getD []
    let st := { st with achievements := setAssoc st.achievements wallet walletAch }
    if (walletAch.find? (fun a => a.id == achievementId)).isSome then (none, st, [])
    else
      match ACHIEVEMENTS.find? (fun a => a.id == achievementId) with
      | none => (none, st, [])
      | some achDef =>
        let achievement : Achievement :=
          { id := achievementId, name := achDef.name, desc := achDef.desc
            icon := achDef.icon, unlockedAt := now }
        let st :=
          { st with achievements :=
              setAssoc st.achievements wallet (walletAch ++ [achievement]) }
        let st :=
          match lookupAssoc st.users wallet with
          | some u =>
              let u' :=
                { u with karma := u.karma + achDef.karma,
                         xp := u.xp + achDef.karma * 10 }
              { st with users := setAssoc st.users wallet u' }
          | none => st
        let (st, evs1) := addNotification wallet "achievement"
          ("🏆 Achievement Unlocked: " ++ achDef.icon ++ " " ++ achDef.name ++ "!")
          none now st
        let (st, evs2) := addActivity "achievement" wallet achievementId
          ("unlocked " ++ achDef.name) now st
        (some achievement, st, evs1 ++ evs2)

/-- `getUser(wallet)`: `null` for a falsy wallet; otherwise returns the
existing record after refreshing its `lastSeen`, or lazily creates a
fresh record (unlocking `early_adopter` while the user count is within
the first 1000). -/
def getUser (wallet : Option String) (now : Int) (st : ServerState) :
    Option User × ServerState × List Event :=
  match wallet with
  | none => (none, st, [])
  | some w =>
    if w = "" then (none, st, [])
    else
      match lookupAssoc st.users w with
      | some u =>
        let u' := { u with lastSeen := now }
        (some u', { st with users := setAssoc st.users w u' }, [])
      | none =>
        let st := { st with users := setAssoc st.users w (freshUser w now) }
        let (st, evs) :=
          if st.users.length ≤ 1000 then
            let (_, st, evs) := unlockAchievement w "early_adopter" now st
            (st, evs)
          else (st, [])
        (lookupAssoc st.users w, st, evs)

/-- `RATE_LIMIT` actions per `RATE_WINDOW` milliseconds. -/
def RATE_LIMIT : Nat := 5

/-- The rate-limit window in milliseconds. -/
def RATE_WINDOW : Int := 60000

/-- Result of a `checkRateLimit` call. -/
structure RateResult where
  allowed : Bool
  waitTime : Option Int
deriving Repr, DecidableEq

/-- `checkRateLimit(wallet)`: falsy wallets and `'SNAI'` are always
allowed without touching the map; otherwise the wallet's timestamps are
trimmed to the window, the call is rejected with a ceiling-of-seconds
wait hint when the trimmed list is full, and otherwise `now` is
recorded. -/
def checkRateLimit (wallet : Option String) (now : Int)
    (rateLimitMap : List (String × List Int)) :
    RateResult × List (String × List Int) :=
  match wallet with
  | none => (⟨true, none⟩, rateLimitMap)
  | some w =>
    if w = "" ∨ w = "SNAI" then (⟨true, none⟩, rateLimitMap)
    else
      let ts := (lookupAssoc rateLimitMap w).getD []
      let ts' := ts.filter (fun t => now - t < RATE_WINDOW)
      if RATE_LIMIT ≤ ts'.length then
        (⟨false, some (jsCeilDiv1000 (RATE_WINDOW - (now - ts'.headD 0)))⟩,
         setAssoc rateLimitMap w ts')
      else
        (⟨true, none⟩, setAssoc rateLimitMap w (ts' ++ [now]))

/-- A sequence of `checkRateLimit` calls by one actor at the given
times, threading the rate-limit map. -/
def runRateCalls (wallet : Option String) (times : List Int)
    (m : List (String × List Int)) :
    List RateResult × List (String × List Int) :=
  match times with
  | [] => ([], m)
  | t :: ts =>
    let r := checkRateLimit wallet t m
    let rest := runRateCalls wallet ts r.2
    (r.1 :: rest.1, rest.2)

/-- `calculateHotScore(post)`: `(votes + comments*2) / (ageHours + 2)^1.8`
with `ageHours = (now - post.timestamp) / 3600000`. -/
noncomputable def calculateHotScore (now : Int) (post : Post) : ℝ :=
  let votes : ℝ := (post.votes : ℝ)
  let comments : ℝ := (post.comments.length : ℝ)
  let ageHours : ℝ := ((now - post.timestamp : ℤ) : ℝ) / (1000 * 60 * 60)
  let gravity : ℝ := 1.8
  (votes + comments * 2) / (ageHours + 2) ^ gravity

/-- The trending formula as the specification words it:
`score = (votes + 2×commentCount) / (ageHours + 2)^1.8`. -/
noncomputable def hotScoreSpec (votes commentCount ageHours : ℝ) : ℝ :=
  (votes + 2 * commentCount) / (ageHours + 2) ^ (1.8 : ℝ)

/-- `posts.unshift(post); posts = posts.slice(0, 200)` — the capped
front insertion shared by the `new_post` handler and the scheduler post
generators. -/
def insertCapped (post : Post) (posts : List Post) : List Post :=
  (post :: posts).take 200

/-- `trackTopicInterest(wallet, topic)`: bump the per-wallet counter for
a topic; no-op on falsy wallet or topic. -/
def trackTopicInterest (wallet : String) (topic : Option String)
    (st : ServerState) : ServerState :=
  if wallet = "" then st
  else
    match topic with
    | none => st
    | some t =>
      if t = "" then st
      else
        let m := (lookupAssoc st.topicInterests wallet).getD []
        let n := (lookupAssoc m t).getD 0
        { st with topicInterests :=
            setAssoc st.topicInterests wallet (setAssoc m t (n + 1)) }

/-- Output of a websocket message handler: the new server state, the
events broadcast to everyone, and the messages sent back to the calling
session only. -/
structure WsOut where
  state : ServerState
  broadcasts : List Event
  callerMsgs : List Event
deriving Repr, DecidableEq

/-- The `new_post` websocket handler.  The surrounding message handler
first runs `getUser(uw)`; the handler then rejects a missing wallet,
consults the rate limiter, builds the post record (defaulting hive to
`'c/general'` and title to `'Untitled'`, truncating title/content),
inserts it front-capped, bumps the author's counters, tracks topic
interest and broadcasts `new_post` plus a `state` update. -/
def handleNewPost (uw : Option String) (msgHive msgTitle msgContent : Option String)
    (now : Int) (st0 : ServerState) : WsOut :=
  let g := getUser uw now st0
  let st := g.2.1
  let preEvs := g.2.2
  match uw with
  | none => ⟨st, preEvs, [Event.errorMsg "Connect wallet"]⟩
  | some w =>
    if w = "" then ⟨st, preEvs, [Event.errorMsg "Connect wallet"]⟩
    else
      let rcm := checkRateLimit (some w) now st.rateLimitMap
      let st := { st with rateLimitMap := rcm.2 }
      if rcm.1.allowed = false then
        ⟨st, preEvs, [Event.rateLimitedMsg ((rcm.1.waitTime).getD 0)]⟩
      else
        let post : Post :=
          { id := st.nextPostId
            hive := some (jsOr msgHive "c/general")
            claw := none
            title := strTake (jsOr msgTitle "Untitled") 200
            content := strTake (msgContent.getD "") 2000
            author := getDisplayName w st.users
            authorHandle := none
            wallet := w
            votes := 1
            voters := [(w, 1)]
            comments := []
            time := "just now"
            timestamp := now
            isAgentPost := false }
        let st := { st with nextPostId := st.nextPostId + 1,
                            posts := insertCapped post st.posts }
        let st :=
          match lookupAssoc st.users w with
          | some u =>
            let u' := { u with postCount := u.postCount + 1, karma := u.karma + 1 }
            { st with users := setAssoc st.users w u' }
          | none => st
        let st := trackTopicInterest w msgHive st
        ⟨st,
         preEvs ++
           [Event.newPost post,
            Event.stateCounts st.posts.length (getTotalComments st.posts)],
         []⟩

/-- The vote mutation of the `vote` websocket handler on the found post:
`cv = voters[uw] || 0`, `nv = cv === direction ? 0 : direction`,
`votes = votes - cv + nv`, `voters[uw] = nv` (same direction again
toggles the vote off). -/
def wsApplyVote (uw : String) (direction : Int) (post : Post) : Post :=
  let cv := getVoter post.voters uw
  let nv := if cv = direction then 0 else direction
  { post with votes := post.votes - cv + nv,
              voters := setAssoc post.voters uw nv }

/-- In-place mutation of the first list element satisfying the
predicate (the JS handlers mutate the object returned by `find`). -/
def updateFirst {α : Type} (pred : α → Bool) (f : α → α) : List α → List α
  | [] => []
  | p :: rest => if pred p then f p :: rest else p :: updateFirst pred f rest

/-- The `vote` websocket handler: missing wallet is rejected; an unknown
post id is silently ignored; otherwise the found post is re-voted with
toggle semantics, the post author's karma absorbs the delta, and the
updated post is broadcast. -/
def handleVote (uw : Option String) (postId : Nat) (direction : Int)
    (now : Int) (st0 : ServerState) : WsOut :=
  let g := getUser uw now st0
  let st := g.2.1
  let preEvs := g.2.2
  match uw with
  | none => ⟨st, preEvs, [Event.errorMsg "Connect wallet"]⟩
  | some w =>
    if w = "" then ⟨st, preEvs, [Event.errorMsg "Connect wallet"]⟩
    else
      match st.posts.find? (fun p => p.id == postId) with
      | none => ⟨st, preEvs, []⟩
      | some post =>
        let cv := getVoter post.voters w
        let nv := if cv = direction then 0 else direction
        let post' := wsApplyVote w direction post
        let posts' := updateFirst (fun p => p.id == postId) (wsApplyVote w direction) st.posts
        let st := { st with posts := posts' }
        let st :=
          if post.wallet = "" then st
          else
            match lookupAssoc st.users post.wallet with
            | some u =>
              let u' := { u with karma := u.karma + (nv - cv) }
              { st with users := setAssoc st.users post.wallet u' }
            | none => st
        ⟨st, preEvs ++ [Event.updatePost post'], []⟩

/-- The vote core of the REST `POST /api/v1/vote` handler: the direction
is normalised to -1/0/1 and the tally is only touched when the stored
vote differs (repeat votes in the same direction are no-ops). -/
def apiVoteOnPost (voteKey : String) (direction : Int) (post : Post) : Post :=
  let oldVote := getVoter post.voters voteKey
  let newVote : Int := if 0 < direction then 1 else if direction < 0 then -1 else 0
  if oldVote ≠ newVote then
    { post with votes := post.votes - oldVote + newVote,
                voters := setAssoc post.voters voteKey newVote }
  else post

/-- `getAllAgentsWithRegistered()`: built-in agents, user-created agents
and converted active registered agents, sorted by karma descending. -/
def getAllAgentsWithRegistered (st : ServerState) : List Agent :=
  (st.agents ++ st.userAgents ++ st.registeredAgents).insertionSort
    (fun a b => b.karma ≤ a.karma)

/-- The request fields of a `createUserAgent` call. -/
structure AgentData where
  name : String
  ticker : String
  description : String
  personality : Option String
  avatar : Option String
  deployToken : Bool
deriving Repr, DecidableEq

/-- Result of `createUserAgent`: `{error}` or `{success, agent}`. -/
inductive CreateResult where
  | failure (message : String)
  | success (agent : Agent)
deriving Repr, DecidableEq

/-- `createUserAgent(wallet, data)`: validates the caller and fields,
rejects a duplicate case-insensitive name or handle, and otherwise
appends the new agent, rewards the creator, unlocks `deploy_agent`, logs
an activity and broadcasts.  The deferred `generateAgentIntroPost`
(`setTimeout`) is outside this synchronous step.  `fakeCA` stands for
the `generateFakeCA()` sample. -/
def createUserAgent (wallet : Option String) (data : AgentData) (now : Int)
    (fakeCA : String) (st0 : ServerState) :
    CreateResult × ServerState × List Event :=
  match wallet with
  | none => (.failure "Connect wallet", st0, [])
  | some w =>
    if w = "" then (.failure "Connect wallet", st0, [])
    else
      let g := getUser (some w) now st0
      let st := g.2.1
      let evs := g.2.2
      match g.1 with
      | none => (.failure "Connect wallet", st, evs)
      | some user =>
        if user.karma < 50 then
          (.failure "Need 50+ karma to create agents", st, evs)
        else if data.name.length < 2 ∨ 20 < data.name.length then
          (.failure "Name must be 2-20 characters", st, evs)
        else if data.ticker.length < 2 ∨ 6 < data.ticker.length then
          (.failure "Ticker must be 2-6 characters", st, evs)
        else if data.description.length < 10 then
          (.failure "Description must be 10+ characters", st, evs)
        else
          let handle := toHandle data.name
          let allAgents := getAllAgentsWithRegistered st
          if (allAgents.find? (fun a =>
                strToLower a.name == strToLower data.name || a.handle == handle)).isSome then
            (.failure "Agent name already exists", st, evs)
          else
            let personality := jsOr data.personality
              ("You are " ++ data.name ++ ". " ++ data.description ++
               " Stay in character. Be helpful and engaging.")
            let newAgent : Agent :=
              { id := st.nextAgentId
                name := data.name
                handle := handle
                ticker := "$" ++ strToUpper data.ticker
                description := data.description
                personality := personality
                avatar := jsOr data.avatar "🤖"
                creator := getDisplayName w st.users
                creatorWallet := some w
                karma := 10
                postCount := 0
                commentCount := 0
                followers := []
                topics := []
                createdAt := now
                isAI := true
                isUserCreated := true
                isVerified := false
                deployedBy := "human"
                token := if data.deployToken then some ⟨fakeCA, now⟩ else none }
            let st := { st with nextAgentId := st.nextAgentId + 1,
                                userAgents := st.userAgents ++ [newAgent] }
            let st :=
              match lookupAssoc st.users w with
              | some u =>
                let u' := { u with agentsCreated := u.agentsCreated ++ [newAgent.id],
                                   karma := u.karma + 20 }
                { st with users := setAssoc st.users w u' }
              | none => st
            let a := unlockAchievement w "deploy_agent" now st
            let st := a.2.1
            let evs2 := a.2.2
            let act := addActivity "agent_created" w (toString newAgent.id)
              ("deployed AI agent " ++ newAgent.name ++ " (" ++ newAgent.ticker ++ ")")
              now st
            let st := act.1
            let evs3 := act.2
            (.success newAgent, st,
             evs ++ evs2 ++ evs3 ++
               [Event.newAgent newAgent,
                Event.agentsList ((st.agents ++ st.userAgents).take 20)])

/-- `generateKrabPost()` after the external model call: `tm`/`cm` are
the capture groups of the `TITLE:`/`CONTENT:` regex matches (`none`
when the marker is absent), `agentIdx` the sampled agent index,
`topicHive` the sampled topic's hive, and `rand` the sample behind
`Math.floor(Math.random()*20)`.  When either marker is missing the
attempt is dropped: nothing is mutated and nothing is broadcast.
Prompt assembly and the model call itself have no state effects and are
omitted. -/
def generateKrabPost (tm cm : Option String) (agentIdx : Nat)
    (topicHive : String) (rand : Nat) (now : Int) (st : ServerState) :
    ServerState × List Event :=
  match st.agents[agentIdx]? with
  | none => (st, [])
  | some agent =>
    match tm, cm with
    | some tmv, some cmv =>
      let title := strTake (strTrim tmv) 200
      let content := strTake (strTrim cmv) 2000
      let post : Post :=
        { id := st.nextPostId
          hive := none
          claw := some topicHive
          title := title
          content := content
          author := agent.name
          authorHandle := some agent.handle
          wallet := agent.name
          votes := (rand % 20 : Nat) + 1
          voters := []
          comments := []
          time := "just now"
          timestamp := now
          isAgentPost := true }
      let agent' :=
        { agent with topics := (topicHive :: agent.topics).take 20,
                     postCount := agent.postCount + 1,
                     karma := agent.karma + 5 }
      let agents' := st.agents.set agentIdx agent'
      let st := { st with nextPostId := st.nextPostId + 1,
                          posts := insertCapped post st.posts,
                          agents := agents' }
      (st,
       [Event.newPost post,
        Event.activityAction agent.name ("posted \"" ++ strTake title 25 ++ "...\""),
        Event.agentsList (agents'.take 10)])
    | _, _ => (st, [])

/-- The `delete_post` websocket handler branch
(`idx = posts.findIndex(...); if (idx !== -1 && posts[idx].wallet === uw)`):
the post is removed only when it is found and its `wallet` field equals
the session's wallet; any other request leaves every collection
untouched and broadcasts nothing.  `uw` is the session's wallet
(`undefined` when no wallet is connected). -/
def handleDeletePost (uw : Option String) (postId : Nat)
    (st : ServerState) : WsOut :=
  match st.posts.findIdx? (fun p => p.id == postId) with
  | none => ⟨st, [], []⟩
  | some idx =>
    match st.posts[idx]? with
    | none => ⟨st, [], []⟩
    | some p =>
      if some p.wallet = uw then
        let posts' := st.posts.eraseIdx idx
        ⟨{ st with posts := posts' },
         [Event.deletePost postId,
          Event.stateCounts posts'.length (getTotalComments posts')],
         []⟩
      else ⟨st, [], []⟩

/-- A live websocket session: its registry identity, connection state
(`readyState === WebSocket.OPEN`) and the frames written to it. -/
structure Session where
  id : Nat
  isOpen : Bool
  received : List String
deriving Repr, DecidableEq

/-- A plain rendering standing for `JSON.stringify` on the embedded
event objects (its exact text is irrelevant; `broadcast` computes it
once and writes the same string to every open session). -/
def serializeEvent : Event → String
  | .newPost p => "type=new_post;id=" ++ toString p.id ++ ";title=" ++ p.title
  | .updatePost p => "type=update_post;id=" ++ toString p.id
  | .deletePost pid => "type=delete_post;postId=" ++ toString pid
  | .stateCounts p c => "type=state;posts=" ++ toString p ++ ";comments=" ++ toString c
  | .activityAction u a => "type=activity;user=" ++ u ++ ";action=" ++ a
  | .activityRecord a => "type=activity;content=" ++ a.content
  | .agentsList l => "type=agents;count=" ++ toString l.length
  | .newAgent a => "type=new_agent;name=" ++ a.name
  | .errorMsg m => "type=error;message=" ++ m
  | .rateLimitedMsg wt => "type=rate_limited;waitTime=" ++ toString wt
  | .notificationFor w n => "type=notification;wallet=" ++ w ++ ";content=" ++ n.content

/-- `broadcast(data)`: serialize once, write that one string to every
session whose transport is open, skip the rest, remove nobody. -/
def broadcast (ev : Event) (clients : List Session) : List Session :=
  let json := serializeEvent ev
  clients.map (fun s =>
    if s.isOpen then { s with received := s.received ++ [json] } else s)

/-! ## Concrete fixtures used to instantiate the theorems -/

/-- A server state with every collection empty and both id counters at 1. -/
def emptyState : ServerState :=
  { posts := [], nextPostId := 1, users := [], userAgents := [], agents := []
    registeredAgents := [], nextAgentId := 1, achievements := []
    notifications := [], activityFeed := [], rateLimitMap := []
    topicInterests := [] }

/-- A human post by wallet `"W"` that `"W"` has upvoted. -/
def samplePost : Post :=
  { id := 1, hive := some "general", claw := none, title := "T", content := "C"
    author := "W", authorHandle := none, wallet := "W", votes := 1
    voters := [("W", 1)], comments := [], time := "just now", timestamp := 0
    isAgentPost := false }

/-- A state holding `samplePost` and its author's user record. -/
def sampleVoteState : ServerState :=
  { emptyState with posts := [samplePost], users := [("W", freshUser "W" 0)] }

/-- The wallet-`"W"` user with exactly the 50 karma needed to create
agents, last seen at time 0. -/
def sampleUser50 : User := { freshUser "W" 0 with karma := 50 }

/-- A previously registered user-created agent named `"Bob"`. -/
def sampleAgentBob : Agent :=
  { id := 1, name := "Bob", handle := "bob", ticker := "$BOB"
    description := "first bob", personality := "p", avatar := "🤖"
    creator := "W", creatorWallet := some "W", karma := 10, postCount := 0
    commentCount := 0, followers := [], topics := [], createdAt := 0
    isAI := true, isUserCreated := true, isVerified := false
    deployedBy := "human", token := none }

/-- A state in which wallet `"W"` (50 karma) has already registered the
agent `"Bob"`. -/
def sampleAgentState : ServerState :=
  { emptyState with users := [("W", sampleUser50)], userAgents := [sampleAgentBob] }

/-- A second attempt at the name `"Bob"`, differing only in case. -/
def sampleDupData : AgentData :=
  { name := "bob", ticker := "BOB", description := "0123456789"
    personality := none, avatar := none, deployToken := false }

/-- A post with no votes and no comments (numerator of the hot score is
zero); reachable, e.g. after the author toggles their own vote off. -/
def zeroEngagementPost : Post :=
  { id := 1, hive := some "general", claw := none, title := "T", content := "C"
    author := "W", authorHandle := none, wallet := "W", votes := 0
    voters := [("W", 0)], comments := [], time := "just now", timestamp := 0
    isAgentPost := false }

/-- The user record of the `new_post` scenario wallet. -/
def userABC : User := freshUser "ABC123" 0

/-- The `new_post` scenario start state: wallet `"ABC123"` is known, no
posts exist, the post id counter is at 1, and nothing is rate limited. -/
def scenarioState : ServerState :=
  { emptyState with users := [("ABC123", userABC)] }

/-! ## Frame lemmas: the user-bookkeeping helpers never touch the post
list -/

theorem addNotification_posts (w ty c : String) (rid : Option Nat) (now : Int)
    (st : ServerState) : ((addNotification w ty c rid now st).1).posts = st.posts := by
  unfold addNotification
  split <;> rfl

theorem addActivity_posts (ty a t c : String) (now : Int) (st : ServerState) :
    ((addActivity ty a t c now st).1).posts = st.posts := rfl

theorem unlockAchievement_posts (w a : String) (now : Int) (st : ServerState) :
    ((unlockAchievement w a now st).2.1).posts = st.posts := by
  unfold unlockAchievement addNotification
  dsimp only
  repeat' split
  all_goals rfl

theorem getUser_posts (uw : Option String) (now : Int) (st : ServerState) :
    ((getUser uw now st).2.1).posts = st.posts := by
  unfold getUser
  match uw with
  | none => rfl
  | some w =>
    simp only
    split
    · rfl
    · split
      · rfl
      · simp only
        split
        · simp [unlockAchievement_posts]
        · rfl

theorem trackTopicInterest_posts (w : String) (topic : Option String)
    (st : ServerState) : (trackTopicInterest w topic st).posts = st.posts := by
  unfold trackTopicInterest
  split
  · rfl
  · split
    · rfl
    · split <;> rfl

/-! ## C9 — the rate limiter unconditionally exempts falsy wallets and
the `'SNAI'` system identity -/

/-- C9: `checkRateLimit` returns `{allowed: true}` for the reserved
wallet `'SNAI'`, for the empty string and for an absent wallet, and it
records no timestamp (the rate-limit map is returned untouched), for
every time and every map state — such actors are never rate limited. -/
theorem checkRateLimit_exempt (now : Int) (m : List (String × List Int)) :
    checkRateLimit (some "SNAI") now m = (⟨true, none⟩, m) ∧
    checkRateLimit (some "") now m = (⟨true, none⟩, m) ∧
    checkRateLimit none now m = (⟨true, none⟩, m) := by
  refine ⟨?_, ?_, ?_⟩ <;> simp [checkRateLimit]

/-! ## C8 — broadcast: one serialization, delivered to exactly the open
sessions, registry membership untouched -/

/-- C8: `broadcast` serializes the event once; every session whose
transport is open receives exactly that one serialization appended,
every non-open session receives nothing, and no session is added to or
removed from the registry (same length, same ids, same open flags,
positionally). -/
theorem broadcast_spec (ev : Event) (cs : List Session) :
    (broadcast ev cs).length = cs.length ∧
    ∀ i, i < cs.length →
      ∃ s s', cs[i]? = some s ∧ (broadcast ev cs)[i]? = some s' ∧
        s'.id = s.id ∧ s'.isOpen = s.isOpen ∧
        s'.received =
          (if s.isOpen then s.received ++ [serializeEvent ev] else s.received) := by
  constructor
  · simp [broadcast]
  · intro i hi
    have hs : cs[i]? = some cs[i] := List.getElem?_eq_getElem hi
    refine ⟨cs[i],
      (if cs[i].isOpen then
        { cs[i] with received := cs[i].received ++ [serializeEvent ev] }
       else cs[i]), hs, ?_, ?_, ?_, ?_⟩
    · simp [broadcast, List.getElem?_map, hs]
    · cases h : cs[i].isOpen <;> simp [h]
    · cases h : cs[i].isOpen <;> simp [h]
    · cases h : cs[i].isOpen <;> simp [h]

/-- Witness for C8 at a concrete registry of one open and one closed
session, index 0. -/
theorem broadcast_spec_witness :
    (broadcast (.deletePost 3) [⟨1, true, []⟩, ⟨2, false, []⟩]).length =
      ([⟨1, true, []⟩, ⟨2, false, []⟩] : List Session).length ∧
    (0 : Nat) < ([⟨1, true, []⟩, ⟨2, false, []⟩] : List Session).length ∧
    ∃ s s', ([⟨1, true, []⟩, ⟨2, false, []⟩] : List Session)[0]? = some s ∧
      (broadcast (.deletePost 3) [⟨1, true, []⟩, ⟨2, false, []⟩])[0]? = some s' ∧
      s'.id = s.id ∧ s'.isOpen = s.isOpen ∧
      s'.received =
        (if s.isOpen then s.received ++ [serializeEvent (.deletePost 3)]
         else s.received) :=
  ⟨(broadcast_spec (.deletePost 3) [⟨1, true, []⟩, ⟨2, false, []⟩]).1,
   by decide,
   (broadcast_spec (.deletePost 3) [⟨1, true, []⟩, ⟨2, false, []⟩]).2 0 (by decide)⟩

/-! ## C3 — a model response without both markers is silently dropped -/

/-- C3: when the `TITLE:` or the `CONTENT:` regex fails to match
(`tm`/`cm` is `none`), `generateKrabPost` creates no post, mutates no
agent counter (postCount, karma, topics), leaves the post list and the
id counter unchanged, and broadcasts nothing: the whole state is
returned untouched with no events. -/
theorem generateKrabPost_dropped (tm cm : Option String) (agentIdx : Nat)
    (topicHive : String) (rand : Nat) (now : Int) (st : ServerState)
    (h : tm = none ∨ cm = none) :
    generateKrabPost tm cm agentIdx topicHive rand now st = (st, []) := by
  unfold generateKrabPost
  cases hA : st.agents[agentIdx]? with
  | none => rfl
  | some agent =>
    rcases h with h | h
    · subst h; rfl
    · subst h; cases tm <;> rfl

/-- Witness for C3: a response with a `CONTENT:` block but no `TITLE:`
marker, on the empty server state. -/
theorem generateKrabPost_dropped_witness :
    ((none : Option String) = none ∨ (some "body" : Option String) = none) ∧
    generateKrabPost none (some "body") 0 "c/ai" 3 9 emptyState =
      (emptyState, []) :=
  ⟨Or.inl rfl,
   generateKrabPost_dropped none (some "body") 0 "c/ai" 3 9 emptyState (Or.inl rfl)⟩

/-! ## C7 — every post-creating operation keeps the post list capped at
200, truncating rather than refusing -/

/-- C7: the capped front insertion used by both post-creating operations
never yields more than 200 posts, and at the cap it keeps the new post
at the front while dropping the last (oldest) element; the `new_post`
handler and the scheduler post generator either leave the post list
unchanged (failure paths) or insert exactly through this capped
insertion. -/
theorem postList_cap :
    (∀ (p : Post) (l : List Post), (insertCapped p l).length ≤ 200 ∧
        (l.length = 200 → insertCapped p l = p :: l.take 199)) ∧
    (∀ uw mh mt mc now st,
        (handleNewPost uw mh mt mc now st).state.posts = st.posts ∨
        ∃ p, (handleNewPost uw mh mt mc now st).state.posts = insertCapped p st.posts) ∧
    (∀ tm cm i hv r now st,
        (generateKrabPost tm cm i hv r now st).1.posts = st.posts ∨
        ∃ p, (generateKrabPost tm cm i hv r now st).1.posts = insertCapped p st.posts) := by
  refine ⟨?_, ?_, ?_⟩
  · intro p l
    constructor
    · simp [insertCapped]
    · intro _
      rw [insertCapped, show (200 : Nat) = 199 + 1 from rfl, List.take_succ_cons]
  · intro uw mh mt mc now st
    unfold handleNewPost
    cases uw with
    | none =>
      left
      exact getUser_posts none now st
    | some w =>
      dsimp only
      split
      · left
        exact getUser_posts (some w) now st
      · split
        · left
          exact getUser_posts (some w) now st
        · right
          rw [trackTopicInterest_posts]
          split
          · dsimp only
            rw [getUser_posts]
            exact ⟨_, rfl⟩
          · dsimp only
            rw [getUser_posts]
            exact ⟨_, rfl⟩
  · intro tm cm i hv r now st
    unfold generateKrabPost
    cases hA : st.agents[i]? with
    | none => left; rfl
    | some agent =>
      cases tm with
      | none => left; rfl
      | some tmv =>
        cases cm with
        | none => left; rfl
        | some cmv =>
          right
          exact ⟨_, rfl⟩

/-- Witness for C7: inserting into a list already at the 200 cap keeps
the cap and drops the oldest entry. -/
theorem postList_cap_witness :
    (List.replicate 200 samplePost).length = 200 ∧
    insertCapped zeroEngagementPost (List.replicate 200 samplePost) =
      zeroEngagementPost :: (List.replicate 200 samplePost).take 199 :=
  ⟨List.length_replicate 200 samplePost,
   (postList_cap.1 zeroEngagementPost (List.replicate 200 samplePost)).2
     (List.length_replicate 200 samplePost)⟩

/-! ## C10 — delete_post removes a post only for the owning wallet and
is otherwise a complete no-op -/

/-- C10: the `delete_post` handler removes the post only when the id is
found and the post's `wallet` equals the session's wallet; when the id
is not found, or the wallets differ, the whole server state is returned
unchanged and no `delete_post` broadcast is emitted. -/
theorem handleDeletePost_spec (uw : Option String) (postId : Nat) (st : ServerState) :
    (st.posts.findIdx? (fun p => p.id == postId) = none →
       handleDeletePost uw postId st = ⟨st, [], []⟩) ∧
    (∀ idx p, st.posts.findIdx? (fun p => p.id == postId) = some idx →
       st.posts[idx]? = some p → some p.wallet ≠ uw →
       handleDeletePost uw postId st = ⟨st, [], []⟩) ∧
    (∀ idx p, st.posts.findIdx? (fun p => p.id == postId) = some idx →
       st.posts[idx]? = some p → some p.wallet = uw →
       handleDeletePost uw postId st =
         ⟨{ st with posts := st.posts.eraseIdx idx },
          [Event.deletePost postId,
           Event.stateCounts (st.posts.eraseIdx idx).length
             (getTotalComments (st.posts.eraseIdx idx))], []⟩) := by
  refine ⟨?_, ?_, ?_⟩
  · intro h
    unfold handleDeletePost
    rw [h]
  · intro idx p h1 h2 h3
    unfold handleDeletePost
    rw [h1]
    dsimp only
    rw [h2]
    dsimp only
    rw [if_neg h3]
  · intro idx p h1 h2 h3
    unfold handleDeletePost
    rw [h1]
    dsimp only
    rw [h2]
    dsimp only
    rw [if_pos h3]

/-- Witness for C10: a stranger wallet `"Z"` asking to delete post 1
leaves the state untouched and broadcasts nothing. -/
theorem handleDeletePost_spec_witness :
    sampleVoteState.posts.findIdx? (fun p => p.id == 1) = some 0 ∧
    sampleVoteState.posts[0]? = some samplePost ∧
    some samplePost.wallet ≠ some "Z" ∧
    handleDeletePost (some "Z") 1 sampleVoteState = ⟨sampleVoteState, [], []⟩ :=
  ⟨by decide, by decide, by decide,
   (handleDeletePost_spec (some "Z") 1 sampleVoteState).2.1 0 samplePost
     (by decide) (by decide) (by decide)⟩

/-! ## C5 — the concrete new_post scenario -/

/-- C5: a connected, non-rate-limited wallet `"ABC123"` posting title
`"Hello"`, content `"World"` to community `"general"` produces a post
with votes 1, voter map `{"ABC123": 1}` and no comments; the post id
counter advances by exactly one, the post list gains exactly that post,
and a `new_post` broadcast carrying it is emitted. -/
theorem newPost_scenario :
    ∃ p : Post,
      (handleNewPost (some "ABC123") (some "general") (some "Hello")
          (some "World") 1000 scenarioState).broadcasts =
        [Event.newPost p, Event.stateCounts 1 0] ∧
      p.votes = 1 ∧ p.voters = [("ABC123", 1)] ∧ p.comments = [] ∧
      p.title = "Hello" ∧ p.content = "World" ∧ p.hive = some "general" ∧
      p.wallet = "ABC123" ∧
      (handleNewPost (some "ABC123") (some "general") (some "Hello")
          (some "World") 1000 scenarioState).state.posts = [p] ∧
      (handleNewPost (some "ABC123") (some "general") (some "Hello")
          (some "World") 1000 scenarioState).state.nextPostId =
        scenarioState.nextPostId + 1 := by
  refine ⟨{ id := 1, hive := some "general", claw := none, title := "Hello"
            content := "World", author := "ABC1..C123", authorHandle := none
            wallet := "ABC123", votes := 1, voters := [("ABC123", 1)]
            comments := [], time := "just now", timestamp := 1000
            isAgentPost := false }, ?_⟩
  set_option maxRecDepth 8000 in decide

/-! ## C1 — re-voting semantics: the websocket vote is a toggle, the
REST agent vote is idempotent -/

/-- Counterexample to C1 as stated: wallet `"W"` has already upvoted
post 1 (tally 1); casting the same direction `1` again through the
websocket `vote` handler changes the tally to 0 (net delta −1, not 0):
the handler treats a repeated same-direction vote as un-voting. -/
theorem vote_same_direction_cex :
    sampleVoteState.posts.map Post.votes = [1] ∧
    (handleVote (some "W") 1 1 5 sampleVoteState).state.posts.map Post.votes = [0] := by
  decide

/-- C1 (amended): for a wallet whose recorded vote on the post is
`d ∈ {1, -1}`: the websocket handler treats the same direction again as
un-voting (tally delta −d) and the opposite direction as a flip (tally
delta −2d, i.e. it changes the tally by exactly 2); the REST
`/api/v1/vote` core is idempotent for the same direction (post
unchanged) and also flips by exactly 2 for the opposite direction. -/
theorem vote_revote_semantics (post : Post) (w : String) (d : Int)
    (hd : d = 1 ∨ d = -1) (hv : getVoter post.voters w = d) :
    (wsApplyVote w d post).votes = post.votes - d ∧
    (wsApplyVote w (-d) post).votes = post.votes - 2 * d ∧
    apiVoteOnPost w d post = post ∧
    (apiVoteOnPost w (-d) post).votes = post.votes - 2 * d := by
  rcases hd with hd | hd <;> subst hd <;>
    refine ⟨?_, ?_, ?_, ?_⟩ <;>
    simp [wsApplyVote, apiVoteOnPost, hv] <;> ring

/-- Witness for C1 (amended) at `samplePost`, where `"W"`'s recorded
vote is 1. -/
theorem vote_revote_semantics_witness :
    ((1 : Int) = 1 ∨ (1 : Int) = -1) ∧ getVoter samplePost.voters "W" = 1 ∧
    ((wsApplyVote "W" 1 samplePost).votes = samplePost.votes - 1 ∧
     (wsApplyVote "W" (-1) samplePost).votes = samplePost.votes - 2 * 1 ∧
     apiVoteOnPost "W" 1 samplePost = samplePost ∧
     (apiVoteOnPost "W" (-1) samplePost).votes = samplePost.votes - 2 * 1) :=
  ⟨Or.inl rfl, by decide,
   vote_revote_semantics samplePost "W" 1 (Or.inl rfl) (by decide)⟩

/-! ## C2 — the hot score: formula, determinism, and decay -/

/-- Counterexample to C2 as stated: a post with 0 votes and 0 comments
(numerator zero) scores 0 at age 1 hour and 0 at age 2 hours — the
score does not strictly decrease as age increases. -/
theorem hotScore_decay_cex :
    ¬ (calculateHotScore 7200000 zeroEngagementPost <
        calculateHotScore 3600000 zeroEngagementPost) := by
  have h1 : calculateHotScore 7200000 zeroEngagementPost = 0 := by
    unfold calculateHotScore
    norm_num [zeroEngagementPost]
  have h2 : calculateHotScore 3600000 zeroEngagementPost = 0 := by
    unfold calculateHotScore
    norm_num [zeroEngagementPost]
  rw [h1, h2]
  exact lt_irrefl 0

/-- C2 (amended): `calculateHotScore` equals the specification formula
`(votes + 2×commentCount) / (ageHours + 2)^1.8` (so recomputation on
identical inputs is deterministic — it is a pure function of votes,
comment count and age), and with votes and comment count fixed the
score strictly decreases as age increases **provided the engagement
numerator `votes + 2·commentCount` is positive** (with numerator 0 the
score is constantly 0, and with a negative numerator it increases
toward 0). -/
theorem calculateHotScore_formula_and_decay :
    (∀ (now : Int) (post : Post),
        calculateHotScore now post =
          hotScoreSpec (post.votes : ℝ) (post.comments.length : ℝ)
            (((now - post.timestamp : ℤ) : ℝ) / 3600000)) ∧
    (∀ v c a₁ a₂ : ℝ, 0 ≤ a₁ → a₁ < a₂ → 0 < v + 2 * c →
        hotScoreSpec v c a₂ < hotScoreSpec v c a₁) := by
  constructor
  · intro now post
    unfold calculateHotScore hotScoreSpec
    dsimp only
    rw [show (1000 * 60 * 60 : ℝ) = 3600000 by norm_num]
    ring_nf
  · intro v c a₁ a₂ h0 h12 hpos
    unfold hotScoreSpec
    have hb1 : (0 : ℝ) < a₁ + 2 := by linarith
    have hb2 : a₁ + 2 < a₂ + 2 := by linarith
    have hp : (a₁ + 2) ^ (1.8 : ℝ) < (a₂ + 2) ^ (1.8 : ℝ) :=
      Real.rpow_lt_rpow (le_of_lt hb1) hb2 (by norm_num)
    have hpow1 : (0 : ℝ) < (a₁ + 2) ^ (1.8 : ℝ) := Real.rpow_pos_of_pos hb1 _
    have hpow2 : (0 : ℝ) < (a₂ + 2) ^ (1.8 : ℝ) :=
      Real.rpow_pos_of_pos (by linarith) _
    rw [div_lt_div_iff hpow2 hpow1]
    exact mul_lt_mul_of_pos_left hp hpos

/-- Witness for C2 (amended): one vote, no comments, ages 0 and 1. -/
theorem calculateHotScore_decay_witness :
    (0 : ℝ) ≤ 0 ∧ (0 : ℝ) < 1 ∧ (0 : ℝ) < 1 + 2 * 0 ∧
    hotScoreSpec 1 0 1 < hotScoreSpec 1 0 0 :=
  ⟨le_refl 0, by norm_num, by norm_num,
   calculateHotScore_formula_and_decay.2 1 0 0 1 (le_refl 0) (by norm_num)
     (by norm_num)⟩

/-! ## C4 — the rate-limit window behaviour for a non-exempt wallet -/

theorem crl_begin (w : String) (hw : ¬ (w = "" ∨ w = "SNAI")) (t : Int) :
    checkRateLimit (some w) t [] = (⟨true, none⟩, [(w, [t])]) := by
  simp [checkRateLimit, hw, lookupAssoc, setAssoc, RATE_LIMIT]

theorem crl_allowed_step (w : String) (hw : ¬ (w = "" ∨ w = "SNAI")) (now : Int)
    (ts : List Int) (hkeep : ∀ t ∈ ts, now - t < RATE_WINDOW)
    (hlen : ts.length < RATE_LIMIT) :
    checkRateLimit (some w) now [(w, ts)] = (⟨true, none⟩, [(w, ts ++ [now])]) := by
  have hfil : ts.filter (fun t => now - t < RATE_WINDOW) = ts :=
    List.filter_eq_self.mpr (fun a ha => by simpa using hkeep a ha)
  unfold checkRateLimit
  dsimp only
  rw [if_neg hw]
  simp only [lookupAssoc, eq_self_iff_true, if_true, Option.getD_some]
  rw [hfil, if_neg (by omega)]
  simp [setAssoc]

theorem crl_reject_step (w : String) (hw : ¬ (w = "" ∨ w = "SNAI")) (now : Int)
    (ts : List Int) (hkeep : ∀ t ∈ ts, now - t < RATE_WINDOW)
    (hlen : RATE_LIMIT ≤ ts.length) :
    checkRateLimit (some w) now [(w, ts)] =
      (⟨false, some (jsCeilDiv1000 (RATE_WINDOW - (now - ts.headD 0)))⟩, [(w, ts)]) := by
  have hfil : ts.filter (fun t => now - t < RATE_WINDOW) = ts :=
    List.filter_eq_self.mpr (fun a ha => by simpa using hkeep a ha)
  unfold checkRateLimit
  dsimp only
  rw [if_neg hw]
  simp only [lookupAssoc, eq_self_iff_true, if_true, Option.getD_some]
  rw [hfil, if_pos (by omega)]
  simp [setAssoc]

theorem crl_allowed_after (w : String) (hw : ¬ (w = "" ∨ w = "SNAI")) (now t0 : Int)
    (rest : List Int) (hdrop : ¬ (now - t0 < RATE_WINDOW))
    (hlen : rest.length + 1 ≤ RATE_LIMIT) :
    checkRateLimit (some w) now [(w, t0 :: rest)] =
      (⟨true, none⟩,
       setAssoc [(w, t0 :: rest)] w
         (rest.filter (fun t => now - t < RATE_WINDOW) ++ [now])) := by
  have hfil : (t0 :: rest).filter (fun t => now - t < RATE_WINDOW) =
      rest.filter (fun t => now - t < RATE_WINDOW) := by
    rw [List.filter_cons]
    simp [hdrop]
  have hflen : (rest.filter (fun t => now - t < RATE_WINDOW)).length ≤ rest.length :=
    List.length_filter_le _ _
  unfold checkRateLimit
  dsimp only
  rw [if_neg hw]
  simp only [lookupAssoc, eq_self_iff_true, if_true, Option.getD_some]
  rw [hfil, if_neg (by omega)]

/-- C4: for a non-exempt wallet starting with no recorded actions, at
monotone times `t1 ≤ … ≤ t6` that all fall within one 60000 ms window:
the first 5 `checkRateLimit` calls are allowed, the 6th is rejected
with a positive wait-time hint (in seconds), and a 7th call made once
the window has elapsed since the earliest counted action (`t7 ≥ t1 +
60000`) is allowed again. -/
theorem rateLimit_window (w : String) (t1 t2 t3 t4 t5 t6 t7 : Int)
    (hw1 : w ≠ "") (hw2 : w ≠ "SNAI")
    (h12 : t1 ≤ t2) (h23 : t2 ≤ t3) (h34 : t3 ≤ t4) (h45 : t4 ≤ t5) (h56 : t5 ≤ t6)
    (hwin : t6 - t1 < 60000) (h67 : t6 ≤ t7) (helap : t1 + 60000 ≤ t7) :
    ∃ wt, 0 < wt ∧
      (runRateCalls (some w) [t1, t2, t3, t4, t5, t6, t7] []).1 =
        [⟨true, none⟩, ⟨true, none⟩, ⟨true, none⟩, ⟨true, none⟩, ⟨true, none⟩,
         ⟨false, some wt⟩, ⟨true, none⟩] := by
  have hw : ¬ (w = "" ∨ w = "SNAI") := by tauto
  have e1 := crl_begin w hw t1
  have e2 := crl_allowed_step w hw t2 [t1]
    (by
      intro t ht
      simp only [List.mem_singleton] at ht
      subst ht
      simp only [RATE_WINDOW]
      omega)
    (by simp [RATE_LIMIT])
  have e3 := crl_allowed_step w hw t3 [t1, t2]
    (by
      intro t ht
      simp only [List.mem_cons, List.mem_singleton, List.not_mem_nil, or_false] at ht
      simp only [RATE_WINDOW]
      rcases ht with rfl | rfl <;> omega)
    (by simp [RATE_LIMIT])
  have e4 := crl_allowed_step w hw t4 [t1, t2, t3]
    (by
      intro t ht
      simp only [List.mem_cons, List.mem_singleton, List.not_mem_nil, or_false] at ht
      simp only [RATE_WINDOW]
      rcases ht with rfl | rfl | rfl <;> omega)
    (by simp [RATE_LIMIT])
  have e5 := crl_allowed_step w hw t5 [t1, t2, t3, t4]
    (by
      intro t ht
      simp only [List.mem_cons, List.mem_singleton, List.not_mem_nil, or_false] at ht
      simp only [RATE_WINDOW]
      rcases ht with rfl | rfl | rfl | rfl <;> omega)
    (by simp [RATE_LIMIT])
  have e6 := crl_reject_step w hw t6 [t1, t2, t3, t4, t5]
    (by
      intro t ht
      simp only [List.mem_cons, List.mem_singleton, List.not_mem_nil, or_false] at ht
      simp only [RATE_WINDOW]
      rcases ht with rfl | rfl | rfl | rfl | rfl <;> omega)
    (by simp [RATE_LIMIT])
  have e7 := crl_allowed_after w hw t7 t1 [t2, t3, t4, t5]
    (by simp only [RATE_WINDOW]; omega)
    (by simp [RATE_LIMIT])
  refine ⟨jsCeilDiv1000 (RATE_WINDOW - (t6 - t1)), ?_, ?_⟩
  · unfold jsCeilDiv1000
    simp only [RATE_WINDOW]
    omega
  · simp only [runRateCalls, e1, e2, e3, e4, e5, e6, e7, List.cons_append,
      List.nil_append, List.headD_cons]

/-- Witness for C4: wallet `"AB"`, five calls at time 0, a sixth call
still at time 0 (rejected), and a seventh at time 60000 (allowed). -/
theorem rateLimit_window_witness :
    ∃ wt, 0 < wt ∧
      (runRateCalls (some "AB") [0, 0, 0, 0, 0, 0, 60000] []).1 =
        [⟨true, none⟩, ⟨true, none⟩, ⟨true, none⟩, ⟨true, none⟩, ⟨true, none⟩,
         ⟨false, some wt⟩, ⟨true, none⟩] :=
  rateLimit_window "AB" 0 0 0 0 0 0 60000 (by decide) (by decide)
    (by decide) (by decide) (by decide) (by decide) (by decide)
    (by decide) (by decide) (by decide)

/-! ## C6 — duplicate case-insensitive agent name is rejected, but the
failed attempt still refreshes the caller's `lastSeen` -/

theorem getUser_existing (w : String) (hw : w ≠ "") (now : Int)
    (st : ServerState) (u : User) (hu : lookupAssoc st.users w = some u) :
    getUser (some w) now st =
      (some { u with lastSeen := now },
       { st with users := setAssoc st.users w { u with lastSeen := now } }, []) := by
  unfold getUser
  dsimp only
  rw [if_neg hw, hu]

/-- Counterexample to C6 as stated: in a state where wallet `"W"`
(karma 50, `lastSeen = 0`) has already registered the agent `"Bob"`, a
second registration attempt named `"bob"` is rejected with the
name-taken error, yet the users collection IS mutated by the failed
attempt (the caller's `lastSeen` is refreshed by the `getUser` call at
the top of `createUserAgent`). -/
theorem createUserAgent_mutation_cex :
    (createUserAgent (some "W") sampleDupData 5 "CA" sampleAgentState).1 =
      .failure "Agent name already exists" ∧
    (createUserAgent (some "W") sampleDupData 5 "CA" sampleAgentState).2.1.users ≠
      sampleAgentState.users := by
  decide

/-- C6 (amended): when a wallet with an existing user record and enough
karma submits a valid request whose name matches an existing agent's
name case-insensitively, `createUserAgent` rejects it with the
"Agent name already exists" error, emits nothing, and the only
collection mutation of the failed attempt is the `lastSeen` refresh of
the caller's own user record performed by the initial `getUser` call;
the agent lists and every other collection are unchanged. -/
theorem createUserAgent_nameTaken (w : String) (hw : w ≠ "") (data : AgentData)
    (now : Int) (ca : String) (st : ServerState) (u : User)
    (hu : lookupAssoc st.users w = some u) (hk : 50 ≤ u.karma)
    (hn1 : 2 ≤ data.name.length) (hn2 : data.name.length ≤ 20)
    (ht1 : 2 ≤ data.ticker.length) (ht2 : data.ticker.length ≤ 6)
    (hd : 10 ≤ data.description.length)
    (htaken : ∃ a ∈ getAllAgentsWithRegistered st,
        strToLower a.name = strToLower data.name) :
    createUserAgent (some w) data now ca st =
      (.failure "Agent name already exists",
       { st with users := setAssoc st.users w { u with lastSeen := now } }, []) := by
  unfold createUserAgent
  dsimp only
  rw [if_neg hw, getUser_existing w hw now st u hu]
  dsimp only
  rw [if_neg (by omega : ¬ (u.karma < 50))]
  rw [if_neg (by omega : ¬ (data.name.length < 2 ∨ 20 < data.name.length))]
  rw [if_neg (by omega : ¬ (data.ticker.length < 2 ∨ 6 < data.ticker.length))]
  rw [if_neg (by omega : ¬ (data.description.length < 10))]
  have hfind :
      ((getAllAgentsWithRegistered
          { st with users := setAssoc st.users w { u with lastSeen := now } }).find?
        (fun a => strToLower a.name == strToLower data.name ||
          a.handle == toHandle data.name)).isSome = true := by
    obtain ⟨a, ha, hname⟩ := htaken
    have hmem : a ∈ getAllAgentsWithRegistered
        { st with users := setAssoc st.users w { u with lastSeen := now } } := ha
    exact List.find?_isSome.mpr ⟨a, hmem, by simp [hname]⟩
  rw [if_pos hfind]

/-- Witness for C6 (amended) at the concrete `sampleAgentState`. -/
theorem createUserAgent_nameTaken_witness :
    ("W" ≠ "" ∧ lookupAssoc sampleAgentState.users "W" = some sampleUser50 ∧
      50 ≤ sampleUser50.karma ∧ 2 ≤ sampleDupData.name.length ∧
      sampleDupData.name.length ≤ 20 ∧ 2 ≤ sampleDupData.ticker.length ∧
      sampleDupData.ticker.length ≤ 6 ∧ 10 ≤ sampleDupData.description.length ∧
      (∃ a ∈ getAllAgentsWithRegistered sampleAgentState,
        strToLower a.name = strToLower sampleDupData.name)) ∧
    createUserAgent (some "W") sampleDupData 5 "CA" sampleAgentState =
      (.failure "Agent name already exists",
       { sampleAgentState with users := setAssoc sampleAgentState.users "W" { sampleUser50 with lastSeen := 5 } },
       []) :=
  ⟨⟨by decide, by decide, by decide, by decide, by decide, by decide, by decide,
    by decide, by decide⟩,
   createUserAgent_nameTaken "W" (by decide) sampleDupData 5 "CA"
     sampleAgentState sampleUser50 (by decide) (by decide) (by decide)
     (by decide) (by decide) (by decide) (by decide) (by decide)⟩

end SNAI
